import Mathlib

/-
  Verification of the Function-object protocol, built-in registry and
  strict-mode parser checks of an embeddable ECMAScript 5.1 engine.

  The definitions below are a shallow embedding of the C sources:
  `ecma-function-object.c` (IsCallable, IsConstructor, [[Call]],
  [[Construct]], [[HasInstance]], lazy property instantiation),
  `ecma-builtins.c` (built-in registry, routine objects, lazy built-in
  property instantiation with the 64-bit two-part instantiated bitset) and
  `js-parser-expr.c` (strict-mode checks on assignments to `eval` and
  `arguments`).  Machine words are modelled as `Nat`; heap pointers are
  object identifiers into an explicit context; fallible operations return
  completion values; recursion through the heap is fuel-indexed.
-/

namespace JerryFn

/-- Object identifiers stand for compact pointers into the object heap. -/
abbrev ObjId := Nat

/-- Symbolic embedding of `ecma_number_t` values that occur in the embedded
code: small unsigned integers and the distinguished constants of the
built-in number table (`ecma-builtins.c`). -/
inductive ENum
  | ofNat (n : Nat)
  | nan
  | posInf
  | negInf
  | maxValue
  | minValue
  | e
  | pi
  | ln10
  | ln2
  | log2e
  | log10e
  | sqrt2
  | sqrtHalf
deriving DecidableEq, Repr

/-- Tagged ecma values (`ecma_value_t` without the error flag): simple
values, numbers, interned strings identified by magic-string id, and
object references. -/
inductive Val
  | undef
  | null
  | boolean (b : Bool)
  | number (n : ENum)
  | string (s : Nat)
  | object (o : ObjId)
deriving DecidableEq, Repr

/-- Completion values: a normal value, a thrown user value (the error flag
set on an arbitrary payload), or the abrupt completion produced by
`ecma_raise_type_error`. -/
inductive Completion
  | normal (v : Val)
  | thrown (v : Val)
  | typeError
deriving DecidableEq, Repr

/-- Property attribute bits. -/
structure Attrs where
  writable : Bool
  enumerable : Bool
  configurable : Bool
deriving DecidableEq, Repr

/-- ECMA_PROPERTY_FIXED: non-writable, non-enumerable, non-configurable. -/
def ECMA_PROPERTY_FIXED : Attrs := ⟨false, false, false⟩

/-- ECMA_PROPERTY_FLAG_WRITABLE alone: writable, non-enumerable,
non-configurable. -/
def ECMA_PROPERTY_FLAG_WRITABLE : Attrs := ⟨true, false, false⟩

/-- The value slot of a named property: plain data or a getter/setter
pair. -/
inductive PropSlot
  | data (v : Val)
  | accessor (get : Option ObjId) (set : Option ObjId)
deriving DecidableEq, Repr

/-- A named property node. -/
structure NamedProp where
  attrs : Attrs
  slot : PropSlot
deriving DecidableEq, Repr

/-- Object type tags (`ecma_object_type_t`). -/
inductive ObjType
  | general
  | function
  | boundFunction
  | externalFunction
  | builtinFunction
  | array
  | stringObj
  | argumentsObj
  | lexEnvDecl
  | lexEnvObj
deriving DecidableEq, Repr

/-- The status flags of a compiled-code header that the embedded functions
inspect. -/
structure CodeFlags where
  strictMode : Bool
  lexicalEnvNotNeeded : Bool
  argumentsNeeded : Bool
  uint16Arguments : Bool
deriving DecidableEq, Repr

/-- A compiled-code blob header.  The same header memory is read through
the `cbc_uint8_arguments_t` layout or the `cbc_uint16_arguments_t` layout
depending on the CBC_CODE_FLAGS_UINT16_ARGUMENTS flag; `argumentEnd8` and
`argumentEnd16` are the `argument_end` fields seen through the two
layouts. -/
structure CompiledCode where
  status_flags : CodeFlags
  argumentEnd8 : Nat
  argumentEnd16 : Nat
deriving DecidableEq, Repr

/-- Internal (non-named) property identifiers used by the embedded code. -/
inductive InternalId
  | boundFunctionTargetFunction
  | boundFunctionBoundThis
  | boundFunctionBoundArgs
  | instantiatedMask32_63
  | ecmaValue
deriving DecidableEq, Repr

/-- Values stored in internal properties. -/
inductive InternalVal
  | objPtr (o : ObjId)
  | val (v : Val)
  | argCollection (xs : List Val)
  | mask (m : Nat)
deriving DecidableEq, Repr

/-- Extended-object payload, by function kind (`ecma_extended_object_t`). -/
inductive ExtPayload
  | plain
  | fn (scope : ObjId) (bytecode : CompiledCode)
  | builtin (id : Nat) (routineId : Nat) (length : Nat) (bitset : Nat)
  | externalFn (entry : Nat)
deriving DecidableEq, Repr

/-- An object record. -/
structure Obj where
  otype : ObjType
  isBuiltin : Bool
  isExtensible : Bool
  proto : Option ObjId
  props : List (Nat × NamedProp)
  internals : List (InternalId × InternalVal)
  ext : ExtPayload
deriving DecidableEq, Repr

/-- Built-in property descriptor payload: the `type` discriminator of
`ecma_builtin_property_descriptor_t` together with the interpretation of
its 16-bit `value` field (the packing macros for routine descriptors live
in a header outside the sources, so routine id and length are modelled as
the two extracted fields). -/
inductive BuiltinPropPayload
  | simple (v : Val)
  | number (raw : Nat)
  | string (sid : Nat)
  | object (builtinId : Nat)
  | routine (routineId : Nat) (length : Nat)
deriving DecidableEq, Repr

/-- One entry of a built-in object's property descriptor list. -/
structure BuiltinPropDescr where
  magicStringId : Nat
  attributes : Attrs
  payload : BuiltinPropPayload
deriving DecidableEq, Repr

/-- The engine context: object heap (newest entry first — updates shadow
older entries), allocation counter, the `ecma_builtin_objects` registry
and the static per-built-in property descriptor lists. -/
structure Ctx where
  objs : List (ObjId × Obj)
  nextId : ObjId
  builtins : List (Nat × ObjId)
  builtinLists : List (Nat × List BuiltinPropDescr)
deriving DecidableEq, Repr

/-- Dereference an object pointer. -/
def Ctx.find (ctx : Ctx) (o : ObjId) : Option Obj :=
  ctx.objs.lookup o

/-- Update an object in place (shadowing the previous record). -/
def Ctx.setObj (ctx : Ctx) (o : ObjId) (ob : Obj) : Ctx :=
  { ctx with objs := (o, ob) :: ctx.objs }

/-- Allocate a fresh object and return its identifier. -/
def Ctx.alloc (ctx : Ctx) (ob : Obj) : Ctx × ObjId :=
  ({ ctx with objs := (ctx.nextId, ob) :: ctx.objs, nextId := ctx.nextId + 1 },
   ctx.nextId)

/- Built-in identifiers (a fragment of `ecma_builtin_id_t`). -/

def ECMA_BUILTIN_ID_GLOBAL : Nat := 0

def ECMA_BUILTIN_ID_OBJECT_PROTOTYPE : Nat := 1

def ECMA_BUILTIN_ID_FUNCTION_PROTOTYPE : Nat := 2

def ECMA_BUILTIN_ID_TYPE_ERROR_THROWER : Nat := 3

/-- ECMA_BUILTIN_ID__COUNT: number of built-in object ids; routine ids of
built-in routine functions start here. -/
def ECMA_BUILTIN_ID__COUNT : Nat := 4

/- Magic string identifiers (a fragment of `lit_magic_string_id_t`). -/

def LIT_MAGIC_STRING_LENGTH : Nat := 100

def LIT_MAGIC_STRING_PROTOTYPE : Nat := 101

def LIT_MAGIC_STRING_CONSTRUCTOR : Nat := 102

def LIT_MAGIC_STRING_CALLER : Nat := 103

def LIT_MAGIC_STRING_ARGUMENTS : Nat := 104

/-- Modelled from the spec (`create_object(proto, extensible, type)`;
`ecma_create_object` itself lives in `ecma-helpers.c`, outside the
sources): allocate a fresh object with the given prototype, extensibility
and type, an empty property chain and no extended payload yet. -/
def ecma_create_object (ctx : Ctx) (proto : Option ObjId) (_isExtended : Bool)
    (isExtensible : Bool) (t : ObjType) : Ctx × ObjId :=
  ctx.alloc
    { otype := t, isBuiltin := false, isExtensible := isExtensible,
      proto := proto, props := [], internals := [], ext := .plain }

/-- Embeds `ecma_builtin_get` (ecma-builtins.c): return the registered
built-in object, instantiating and caching it on first demand.  The
per-built-in construction data (`ecma-builtins.inc.h`) is outside the
sources, so instantiation is modelled from the spec as allocating a fresh
built-in-flagged object and storing it in the registry. -/
def ecma_builtin_get (ctx : Ctx) (id : Nat) : Ctx × ObjId :=
  match ctx.builtins.lookup id with
  | some oid => (ctx, oid)
  | none =>
      let p := ctx.alloc
        { otype := .general, isBuiltin := true, isExtensible := true,
          proto := none, props := [], internals := [],
          ext := .builtin id id 0 0 }
      ({ p.1 with builtins := (id, p.2) :: p.1.builtins }, p.2)

/-- Embeds `ecma_op_is_callable` (ecma-function-object.c). -/
def ecma_op_is_callable (ctx : Ctx) (v : Val) : Bool :=
  match v with
  | .object o =>
    match ctx.find o with
    | some ob =>
        decide (ob.otype = .function ∨ ob.otype = .boundFunction ∨
                ob.otype = .externalFunction ∨ ob.otype = .builtinFunction)
    | none => false
  | _ => false

/-- Embeds `ecma_is_constructor` (ecma-function-object.c): an object whose
type tag is function, bound-function or external-function. -/
def ecma_is_constructor (ctx : Ctx) (v : Val) : Bool :=
  match v with
  | .object o =>
    match ctx.find o with
    | some ob =>
        decide (ob.otype = .function ∨ ob.otype = .boundFunction ∨
                ob.otype = .externalFunction)
    | none => false
  | _ => false

/-- Embeds `ecma_builtin_function_is_routine` (ecma-builtins.c): a built-in
function object whose routine id lies at or beyond the built-in id range. -/
def ecma_builtin_function_is_routine (ob : Obj) : Bool :=
  match ob.ext with
  | .builtin _ rid _ _ => decide (ECMA_BUILTIN_ID__COUNT ≤ rid)
  | _ => false

/-- Embeds `ecma_builtin_make_function_object_for_routine`
(ecma-builtins.c): a fresh object of plain-function type, flagged built-in,
whose extended record stores the built-in id, the routine id and the value
of the lazily instantiated `length` property. -/
def ecma_builtin_make_function_object_for_routine (ctx : Ctx)
    (builtinId routineId lengthPropValue : Nat) : Ctx × ObjId :=
  let p := ecma_builtin_get ctx ECMA_BUILTIN_ID_FUNCTION_PROTOTYPE
  let q := ecma_create_object p.1 (some p.2) true true .function
  let ctx2 := q.1
  match ctx2.find q.2 with
  | some ob =>
      (ctx2.setObj q.2
        { ob with isBuiltin := true,
                  ext := .builtin builtinId routineId lengthPropValue 0 },
       q.2)
  | none => (ctx2, q.2)

/-- Embeds `ecma_make_uint32_value` applied to the `argument_end` header
field. -/
def ecma_make_uint32_value (n : Nat) : Val := .number (.ofNat n)

/-- Modelled from the spec (`ecma_op_general_object_get_own_property`,
defined in `ecma-objects-general.c` outside the sources): find the named
property node in the object's own property chain. -/
def ecma_op_general_object_get_own_property (ctx : Ctx) (o : ObjId)
    (name : Nat) : Option NamedProp :=
  match ctx.find o with
  | some ob => ob.props.lookup name
  | none => none

/-- Embeds `ecma_op_function_try_lazy_instantiate_property`
(ecma-function-object.c): on a non-built-in plain function, the first
request for `length` creates a fixed (non-writable, non-enumerable,
non-configurable) data property whose value is the `argument_end` field of
the byte-code header, read through the uint16 or the uint8 layout
according to the header flag; the first request for `prototype` creates a
fresh general object (via `ecma_op_create_object_object_noarg`, modelled
from the spec as a general object whose prototype is the Object prototype
built-in) carrying a writable, non-enumerable, configurable `constructor`
back-reference, and installs it under a writable, non-enumerable,
non-configurable `prototype` property.  Any other name instantiates
nothing. -/
def ecma_op_function_try_lazy_instantiate_property (ctx : Ctx) (o : ObjId)
    (name : Nat) : Ctx × Option NamedProp :=
  match ctx.find o with
  | none => (ctx, none)
  | some ob =>
    match ob.ext with
    | .fn _ bc =>
      if name = LIT_MAGIC_STRING_LENGTH then
        let len := if bc.status_flags.uint16Arguments then bc.argumentEnd16
                   else bc.argumentEnd8
        let p : NamedProp :=
          ⟨ECMA_PROPERTY_FIXED, .data (ecma_make_uint32_value len)⟩
        (ctx.setObj o { ob with props := (name, p) :: ob.props }, some p)
      else if name = LIT_MAGIC_STRING_PROTOTYPE then
        let q := ecma_builtin_get ctx ECMA_BUILTIN_ID_OBJECT_PROTOTYPE
        let r := ecma_create_object q.1 (some q.2) false true .general
        let ctorProp : NamedProp := ⟨⟨true, false, true⟩, .data (.object o)⟩
        let ctx3 :=
          match r.1.find r.2 with
          | some pob =>
              r.1.setObj r.2
                { pob with
                  props := (LIT_MAGIC_STRING_CONSTRUCTOR, ctorProp) :: pob.props }
          | none => r.1
        let p : NamedProp :=
          ⟨ECMA_PROPERTY_FLAG_WRITABLE, .data (.object r.2)⟩
        match ctx3.find o with
        | some ob3 =>
            (ctx3.setObj o { ob3 with props := (name, p) :: ob3.props }, some p)
        | none => (ctx3, none)
      else (ctx, none)
    | _ => (ctx, none)

/-- Embeds `ecma_op_function_object_get_own_property`
(ecma-function-object.c): the ordinary own-property lookup, falling back to
lazy instantiation for non-built-in function objects. -/
def ecma_op_function_object_get_own_property (ctx : Ctx) (o : ObjId)
    (name : Nat) : Ctx × Option NamedProp :=
  match ecma_op_general_object_get_own_property ctx o name with
  | some p => (ctx, some p)
  | none =>
    match ctx.find o with
    | some ob =>
        if ob.isBuiltin then (ctx, none)
        else ecma_op_function_try_lazy_instantiate_property ctx o name
    | none => (ctx, none)

/-- Embeds `ecma_string_is_length`. -/
def ecma_string_is_length (name : Nat) : Bool :=
  name = LIT_MAGIC_STRING_LENGTH

/-- Embeds the built-in number decoding switch of
`ecma_builtin_try_to_instantiate_property` (ecma-builtins.c): raw values
below 256 denote themselves, values below the NaN marker index the
distinguished-constant table, and the remaining markers denote NaN and the
infinities. -/
def ecma_builtin_number_list : List ENum :=
  [.maxValue, .minValue, .e, .pi, .ln10, .ln2, .log2e, .log10e, .sqrt2,
   .sqrtHalf]

def ECMA_BUILTIN_NUMBER_MAX : Nat := 256

def ECMA_BUILTIN_NUMBER_NAN : Nat := 266

def ECMA_BUILTIN_NUMBER_POSITIVE_INFINITY : Nat := 267

def ecma_builtin_decode_number (value : Nat) : ENum :=
  if value < ECMA_BUILTIN_NUMBER_MAX then .ofNat value
  else if value < ECMA_BUILTIN_NUMBER_NAN then
    (ecma_builtin_number_list.getD (value - ECMA_BUILTIN_NUMBER_MAX) .nan)
  else if value = ECMA_BUILTIN_NUMBER_NAN then .nan
  else if value = ECMA_BUILTIN_NUMBER_POSITIVE_INFINITY then .posInf
  else .negInf

/-- Embeds the descriptor-list scan of
`ecma_builtin_try_to_instantiate_property`: walk the list until the magic
string id matches, returning the descriptor together with its slot index;
reaching the terminator yields nothing. -/
def ecma_builtin_find_descr (l : List BuiltinPropDescr) (name : Nat)
    (i : Nat) : Option (Nat × BuiltinPropDescr) :=
  match l with
  | [] => none
  | d :: rest =>
      if d.magicStringId = name then some (i, d)
      else ecma_builtin_find_descr rest name (i + 1)

/-- Embeds the value-construction switch of
`ecma_builtin_try_to_instantiate_property`: simple values, decoded
numbers, magic strings, built-in object references (via
`ecma_builtin_get`) and routine function objects. -/
def ecma_builtin_descr_value (ctx : Ctx) (builtinId : Nat)
    (p : BuiltinPropPayload) : Ctx × Val :=
  match p with
  | .simple v => (ctx, v)
  | .number raw => (ctx, .number (ecma_builtin_decode_number raw))
  | .string sid => (ctx, .string sid)
  | .object b =>
      let q := ecma_builtin_get ctx b
      (q.1, .object q.2)
  | .routine rid len =>
      let q := ecma_builtin_make_function_object_for_routine ctx builtinId rid len
      (q.1, .object q.2)

/-- Embeds `ecma_builtin_try_to_instantiate_property` (ecma-builtins.c).
For a built-in routine function only `length` is instantiated (without
bookkeeping, as it is non-configurable).  For every other built-in object
the property descriptor list of the object's built-in id is scanned; slots
0-31 are tracked in the 32-bit `instantiated_bitset` of the extended
object record, slots 32-63 in a secondary 32-bit mask stored as an
internal property; a slot whose bit is already set yields nothing,
otherwise the bit is set and the described data property is created. -/
def ecma_builtin_try_to_instantiate_property (ctx : Ctx) (o : ObjId)
    (name : Nat) : Ctx × Option NamedProp :=
  match ctx.find o with
  | none => (ctx, none)
  | some ob =>
    if ob.otype = .function ∧ ecma_builtin_function_is_routine ob then
      if ecma_string_is_length name then
        match ob.ext with
        | .builtin _ _ blen _ =>
            let p : NamedProp :=
              ⟨ECMA_PROPERTY_FIXED, .data (.number (.ofNat blen))⟩
            (ctx.setObj o { ob with props := (name, p) :: ob.props }, some p)
        | _ => (ctx, none)
      else (ctx, none)
    else
      match ob.ext with
      | .builtin bid rid blen bitset =>
        let plist := (ctx.builtinLists.lookup bid).getD []
        match ecma_builtin_find_descr plist name 0 with
        | none => (ctx, none)
        | some (index, d) =>
          if index < 32 then
            let bit := (1 : Nat) <<< index
            if bitset &&& bit ≠ 0 then (ctx, none)
            else
              let ctx1 := ctx.setObj o
                { ob with ext := .builtin bid rid blen (bitset ||| bit) }
              let q := ecma_builtin_descr_value ctx1 bid d.payload
              match q.1.find o with
              | some ob2 =>
                  let p : NamedProp := ⟨d.attributes, .data q.2⟩
                  (q.1.setObj o { ob2 with props := (name, p) :: ob2.props },
                   some p)
              | none => (q.1, none)
          else
            let bit := (1 : Nat) <<< (index - 32)
            let prev := ob.internals.lookup .instantiatedMask32_63
            let mask := match prev with
                        | some (.mask m) => m
                        | _ => 0
            if prev.isSome ∧ mask &&& bit ≠ 0 then (ctx, none)
            else
              let ctx1 := ctx.setObj o
                { ob with internals :=
                    (InternalId.instantiatedMask32_63,
                     InternalVal.mask (mask ||| bit)) :: ob.internals }
              let q := ecma_builtin_descr_value ctx1 bid d.payload
              match q.1.find o with
              | some ob2 =>
                  let p : NamedProp := ⟨d.attributes, .data q.2⟩
                  (q.1.setObj o { ob2 with props := (name, p) :: ob2.props },
                   some p)
              | none => (q.1, none)
      | _ => (ctx, none)

/-- Modelled from the spec (the `get_own_property` dispatcher of
`ecma-objects.c`, outside the sources): the ordinary lookup, extended for
plain-function objects by the function lazy hook and for built-in objects
by the built-in lazy hook. -/
def ecma_op_object_get_own_property (ctx : Ctx) (o : ObjId) (name : Nat) :
    Ctx × Option NamedProp :=
  match ctx.find o with
  | none => (ctx, none)
  | some ob =>
    if ob.otype = .function ∧ ¬ob.isBuiltin then
      ecma_op_function_object_get_own_property ctx o name
    else
      match ecma_op_general_object_get_own_property ctx o name with
      | some p => (ctx, some p)
      | none =>
          if ob.isBuiltin then ecma_builtin_try_to_instantiate_property ctx o name
          else (ctx, none)

/-- Modelled from the spec (`to_object`; `ecma_op_to_object` lives in
`ecma-conversion.c` outside the sources): an object converts to itself,
undefined and null raise TypeError, and every other primitive is boxed in
a fresh wrapper object carrying the primitive in an internal slot. -/
def ecma_op_to_object (ctx : Ctx) (v : Val) : Ctx × Completion :=
  match v with
  | .object o => (ctx, .normal (.object o))
  | .undef => (ctx, .typeError)
  | .null => (ctx, .typeError)
  | _ =>
      let p := ctx.alloc
        { otype := .general, isBuiltin := false, isExtensible := true,
          proto := none, props := [],
          internals := [(InternalId.ecmaValue, InternalVal.val v)],
          ext := .plain }
      (p.1, .normal (.object p.2))

/-- Modelled from the spec (`ecma_create_decl_lex_env` of `ecma-lex-env.c`,
outside the sources): a fresh declarative lexical environment whose outer
reference is the given scope. -/
def ecma_create_decl_lex_env (ctx : Ctx) (outer : ObjId) : Ctx × ObjId :=
  ctx.alloc
    { otype := .lexEnvDecl, isBuiltin := false, isExtensible := true,
      proto := some outer, props := [], internals := [], ext := .plain }

/-- Modelled from the spec (`ecma_op_create_arguments_object` of
`ecma-objects-arguments.c`, outside the sources): allocate an Arguments
object and bind it under the name `arguments` in the local environment. -/
def ecma_op_create_arguments_object (ctx : Ctx) (_f : ObjId) (env : ObjId)
    (_args : List Val) : Ctx :=
  let p := ctx.alloc
    { otype := .argumentsObj, isBuiltin := false, isExtensible := true,
      proto := none, props := [], internals := [], ext := .plain }
  match p.1.find env with
  | some e =>
      p.1.setObj env
        { e with props :=
            (LIT_MAGIC_STRING_ARGUMENTS,
             ⟨⟨true, false, false⟩, .data (.object p.2)⟩) :: e.props }
  | none => p.1

/-- Embeds `ecma_function_bind_merge_arg_lists`
(ecma-function-object.c): copy the bound arguments in order into the
destination, then the caller's arguments. -/
def ecma_function_bind_merge_arg_lists : List Val → List Val → List Val
  | [], args => args
  | b :: bs, args => b :: ecma_function_bind_merge_arg_lists bs args

/-- The merged list is the concatenation of the two source lists. -/
theorem ecma_function_bind_merge_arg_lists_eq_append (xs args : List Val) :
    ecma_function_bind_merge_arg_lists xs args = xs ++ args := by
  induction xs with
  | nil => rfl
  | cons b bs ih => simp [ecma_function_bind_merge_arg_lists, ih]

/-- External collaborators of the function protocol: the byte-code
interpreter `vm_run`, the built-in call/construct dispatch tables (whose
per-built-in handlers live outside the sources) and the host dispatcher
for external functions.  The protocol is parametric in them. -/
structure Oracles where
  vmRun : Ctx → CompiledCode → Val → ObjId → List Val → Ctx × Completion
  builtinDispatchCall : Ctx → ObjId → Val → List Val → Ctx × Completion
  builtinDispatchConstruct : Ctx → ObjId → List Val → Ctx × Completion
  externalDispatch : Ctx → ObjId → Nat → Val → List Val → Ctx × Completion

mutual

/-- Modelled from the spec (the `[[Get]]` walk of `ecma-objects.c`, outside
the sources): walk the prototype chain using the own-property lookup (with
its lazy hooks), returning a data property's value directly and invoking a
getter through `[[Call]]` with the original receiver.  `none` means the
fuel ran out. -/
def ecma_op_object_get_impl (fuel : Nat) (O : Oracles) (ctx : Ctx)
    (o : ObjId) (receiver : ObjId) (name : Nat) : Option (Ctx × Completion) :=
  match fuel with
  | 0 => none
  | fuel + 1 =>
    match ecma_op_object_get_own_property ctx o name with
    | (ctx1, some p) =>
        match p.slot with
        | .data v => some (ctx1, .normal v)
        | .accessor get _ =>
            match get with
            | none => some (ctx1, .normal .undef)
            | some g =>
                ecma_op_function_call fuel O ctx1 g (.object receiver) []
    | (ctx1, none) =>
        match (ctx1.find o).bind (·.proto) with
        | some parent => ecma_op_object_get_impl fuel O ctx1 parent receiver name
        | none => some (ctx1, .normal .undef)

/-- Modelled from the spec: `ecma_op_object_get` starts the `[[Get]]` walk
at the receiver itself. -/
def ecma_op_object_get (fuel : Nat) (O : Oracles) (ctx : Ctx) (o : ObjId)
    (name : Nat) : Option (Ctx × Completion) :=
  match fuel with
  | 0 => none
  | fuel + 1 => ecma_op_object_get_impl fuel O ctx o o name

/-- Embeds `ecma_op_function_call` (ecma-function-object.c).  Plain
non-built-in functions compute the this binding (strict: the value itself;
non-strict undefined/null: the global built-in; otherwise `to_object`),
set up the local environment (reusing the captured scope when the header
says no lexical environment is needed, otherwise a fresh declarative
environment, with an Arguments object when required) and run the
byte-code.  Built-in-flagged plain functions and built-in-function-typed
objects go through the built-in dispatcher, external functions through the
host dispatcher, and bound functions recurse into the target with the
bound this value and the bound arguments prepended. -/
def ecma_op_function_call (fuel : Nat) (O : Oracles) (ctx : Ctx) (f : ObjId)
    (thisArg : Val) (args : List Val) : Option (Ctx × Completion) :=
  match fuel with
  | 0 => none
  | fuel + 1 =>
    match ctx.find f with
    | none => some (ctx, .typeError)
    | some fob =>
      if fob.otype = .function then
        if fob.isBuiltin then some (O.builtinDispatchCall ctx f thisArg args)
        else
          match fob.ext with
          | .fn scope bc =>
              let is_strict := bc.status_flags.strictMode
              let is_no_lex_env := bc.status_flags.lexicalEnvNotNeeded
              let p1 :=
                if is_strict then (ctx, thisArg)
                else if thisArg = .undef ∨ thisArg = .null then
                  let q := ecma_builtin_get ctx ECMA_BUILTIN_ID_GLOBAL
                  (q.1, Val.object q.2)
                else
                  match ecma_op_to_object ctx thisArg with
                  | (c, .normal v) => (c, v)
                  | (c, _) => (c, Val.undef)
              let p2 :=
                if is_no_lex_env then (p1.1, scope)
                else
                  let q := ecma_create_decl_lex_env p1.1 scope
                  if bc.status_flags.argumentsNeeded then
                    (ecma_op_create_arguments_object q.1 f q.2 args, q.2)
                  else q
              some (O.vmRun p2.1 bc p1.2 p2.2 args)
          | _ => some (ctx, .typeError)
      else if fob.otype = .builtinFunction then
        some (O.builtinDispatchCall ctx f thisArg args)
      else if fob.otype = .externalFunction then
        match fob.ext with
        | .externalFn entry =>
            some (O.externalDispatch ctx f entry thisArg args)
        | _ => some (ctx, .typeError)
      else if fob.otype = .boundFunction then
        match fob.internals.lookup .boundFunctionBoundThis,
              fob.internals.lookup .boundFunctionTargetFunction with
        | some (.val boundThis), some (.objPtr target) =>
            match fob.internals.lookup .boundFunctionBoundArgs with
            | some (.argCollection xs) =>
                ecma_op_function_call fuel O ctx target boundThis
                  (ecma_function_bind_merge_arg_lists xs args)
            | _ => ecma_op_function_call fuel O ctx target boundThis args
        | _, _ => some (ctx, .typeError)
      else some (ctx, .typeError)

/-- Embeds `ecma_op_function_construct_simple_or_external`
(ecma-function-object.c): read `prototype` through `[[Get]]`, allocate a
fresh general object whose prototype is that value when it is an object
and the Object prototype built-in otherwise, `[[Call]]` the function with
the fresh object as this, and return the call's result when it is an
object, the fresh object otherwise; abrupt completions propagate. -/
def ecma_op_function_construct_simple_or_external (fuel : Nat) (O : Oracles)
    (ctx : Ctx) (f : ObjId) (args : List Val) : Option (Ctx × Completion) :=
  match fuel with
  | 0 => none
  | fuel + 1 =>
    match ecma_op_object_get fuel O ctx f LIT_MAGIC_STRING_PROTOTYPE with
    | none => none
    | some (ctx1, .normal protoVal) =>
        let p :=
          match protoVal with
          | .object pr => ecma_create_object ctx1 (some pr) false true .general
          | _ =>
              let q := ecma_builtin_get ctx1 ECMA_BUILTIN_ID_OBJECT_PROTOTYPE
              ecma_create_object q.1 (some q.2) false true .general
        match ecma_op_function_call fuel O p.1 f (.object p.2) args with
        | none => none
        | some (ctx3, .normal r) =>
            match r with
            | .object _ => some (ctx3, .normal r)
            | _ => some (ctx3, .normal (.object p.2))
        | some (ctx3, c) => some (ctx3, c)
    | some (ctx1, c) => some (ctx1, c)

/-- Embeds `ecma_op_function_construct` (ecma-function-object.c):
built-in-flagged plain functions dispatch into the built-in construct
table; plain and external functions use the simple/external path; bound
functions raise TypeError when the target is not a constructor and
otherwise recurse into the target with the bound arguments prepended. -/
def ecma_op_function_construct (fuel : Nat) (O : Oracles) (ctx : Ctx)
    (f : ObjId) (args : List Val) : Option (Ctx × Completion) :=
  match fuel with
  | 0 => none
  | fuel + 1 =>
    match ctx.find f with
    | none => some (ctx, .typeError)
    | some fob =>
      if fob.otype = .function then
        if fob.isBuiltin then some (O.builtinDispatchConstruct ctx f args)
        else ecma_op_function_construct_simple_or_external fuel O ctx f args
      else if fob.otype = .externalFunction then
        ecma_op_function_construct_simple_or_external fuel O ctx f args
      else if fob.otype = .boundFunction then
        match fob.internals.lookup .boundFunctionTargetFunction with
        | some (.objPtr target) =>
            if ecma_is_constructor ctx (.object target) then
              match fob.internals.lookup .boundFunctionBoundArgs with
              | some (.argCollection xs) =>
                  ecma_op_function_construct fuel O ctx target
                    (ecma_function_bind_merge_arg_lists xs args)
              | _ => ecma_op_function_construct fuel O ctx target args
            else some (ctx, .typeError)
        | _ => some (ctx, .typeError)
      else some (ctx, .typeError)

/-- Embeds `ecma_op_function_has_instance` (ecma-function-object.c): for a
plain-function-typed object, a non-object argument yields false at once;
otherwise `prototype` is read through `[[Get]]`, a non-object prototype
raises TypeError, and the argument's prototype chain is walked looking for
it.  Built-in-function-typed and external functions raise TypeError;
bound functions delegate to the target. -/
def ecma_op_function_has_instance (fuel : Nat) (O : Oracles) (ctx : Ctx)
    (f : ObjId) (value : Val) : Option (Ctx × Completion) :=
  match fuel with
  | 0 => none
  | fuel + 1 =>
    match ctx.find f with
    | none => some (ctx, .typeError)
    | some fob =>
      if fob.otype = .function then
        match value with
        | .object vObj =>
          match ecma_op_object_get fuel O ctx f LIT_MAGIC_STRING_PROTOTYPE with
          | none => none
          | some (ctx1, .normal pv) =>
            match pv with
            | .object protoObj =>
              match ecma_instanceof_walk fuel ctx1 vObj protoObj with
              | some b => some (ctx1, .normal (.boolean b))
              | none => none
            | _ => some (ctx1, .typeError)
          | some (ctx1, c) => some (ctx1, c)
        | _ => some (ctx, .normal (.boolean false))
      else if fob.otype = .builtinFunction ∨ fob.otype = .externalFunction then
        some (ctx, .typeError)
      else if fob.otype = .boundFunction then
        match fob.internals.lookup .boundFunctionTargetFunction with
        | some (.objPtr target) =>
            ecma_op_object_has_instance fuel O ctx target value
        | _ => some (ctx, .typeError)
      else some (ctx, .typeError)

/-- Embeds the prototype-chain loop of `ecma_op_function_has_instance`:
step to the argument's prototype; a null prototype ends the walk with
false, reaching the sought object ends it with true. -/
def ecma_instanceof_walk (fuel : Nat) (ctx : Ctx) (v : ObjId)
    (protoObj : ObjId) : Option Bool :=
  match fuel with
  | 0 => none
  | fuel + 1 =>
    match (ctx.find v).bind (·.proto) with
    | none => some false
    | some parent =>
        if parent = protoObj then some true
        else ecma_instanceof_walk fuel ctx parent protoObj

/-- Modelled from the spec (the `[[HasInstance]]` dispatcher of
`ecma-objects.c`, outside the sources): function-kind objects use the
function implementation, everything else raises TypeError. -/
def ecma_op_object_has_instance (fuel : Nat) (O : Oracles) (ctx : Ctx)
    (o : ObjId) (value : Val) : Option (Ctx × Completion) :=
  match fuel with
  | 0 => none
  | fuel + 1 =>
    match ctx.find o with
    | some ob =>
        if ob.otype = .function ∨ ob.otype = .boundFunction ∨
           ob.otype = .externalFunction ∨ ob.otype = .builtinFunction then
          ecma_op_function_has_instance fuel O ctx o value
        else some (ctx, .typeError)
    | none => some (ctx, .typeError)

end

/-- Modelled from the spec (`ecma_op_object_define_own_property` at
8.12.9, outside the sources, as used by `ecma_op_create_function_object`
on a fresh function object): install an accessor property with the given
getter, setter and enumerable/configurable attributes. -/
def defineAccessorProp (ctx : Ctx) (o : ObjId) (name : Nat)
    (get set : Option ObjId) (enum config : Bool) : Ctx :=
  match ctx.find o with
  | some ob =>
      ctx.setObj o
        { ob with props :=
            (name, ⟨⟨false, enum, config⟩, .accessor get set⟩) :: ob.props }
  | none => ctx

/-- Embeds `ecma_op_create_function_object` (ecma-function-object.c): a
fresh plain-function object over the Function prototype built-in, storing
the captured scope and the byte-code; when the function is strict (either
declared in strict code or flagged strict in its byte-code) the `caller`
and `arguments` properties are defined as non-enumerable,
non-configurable accessors whose getter and setter are both the
TypeError-thrower built-in obtained from `ecma_builtin_get`. -/
def ecma_op_create_function_object (ctx : Ctx) (scope : ObjId)
    (isDeclStrict : Bool) (bc : CompiledCode) : Ctx × ObjId :=
  let is_strict := isDeclStrict || bc.status_flags.strictMode
  let p := ecma_builtin_get ctx ECMA_BUILTIN_ID_FUNCTION_PROTOTYPE
  let q := ecma_create_object p.1 (some p.2) true true .function
  let ctx2 :=
    match q.1.find q.2 with
    | some ob => q.1.setObj q.2 { ob with ext := .fn scope bc }
    | none => q.1
  if is_strict then
    let t := ecma_builtin_get ctx2 ECMA_BUILTIN_ID_TYPE_ERROR_THROWER
    let ctx3 := defineAccessorProp t.1 q.2 LIT_MAGIC_STRING_CALLER
      (some t.2) (some t.2) false false
    let ctx4 := defineAccessorProp ctx3 q.2 LIT_MAGIC_STRING_ARGUMENTS
      (some t.2) (some t.2) false false
    (ctx4, q.2)
  else (ctx2, q.2)

/- Parser model for the strict-mode lvalue checks (js-parser-expr.c). -/

/-- Semantic classification of the last pushed identifier literal
(`lexer_literal_object_type_t`). -/
inductive LexLitObjectType
  | any
  | evalIdent
  | argumentsIdent
deriving DecidableEq, Repr

/-- The parser errors raised by the embedded strict-mode checks, plus a
marker for the remaining error kinds. -/
inductive ParserError
  | evalCannotAssigned
  | argumentsCannotAssigned
deriving DecidableEq, Repr

/-- Symbolic compact-byte-code opcodes as manipulated by the embedded
emitter fragments.  Group offsets such as `CBC_UNARY_LVALUE_WITH_IDENT`
are modelled as constructors applied to the base opcode. -/
inductive CbcOpcode
  | pushIdent
  | pushLiteral
  | pushTwoLiterals
  | propGet
  | propLiteralGet
  | propLiteralLiteralGet
  | assign
  | assignIdent
  | assignLiteral
  | assignLiteralIdent
  | assignPropLiteral
  | assignPropGet
  | assignPropLiteralGet
  | assignPropLiteralLiteralGet
  | extPushUndefinedBase
  | unavailable
  | unaryLvalue (base : Nat)
  | unaryLvalueWithIdent (base : Nat)
  | unaryLvalueWithPropLiteral (base : Nat)
  | unaryLvalueWithPropLiteralLiteral (base : Nat)
  | binaryLvalueWithLiteral (base : Nat)
  | branchIfLogicalTrue
  | branchIfLogicalFalse
  | generic (n : Nat)
deriving DecidableEq, Repr

/-- The `last_cbc` staging slot: the pending opcode, its literal index and
the semantic type of its identifier operand (`last_cbc.u.literal_type[1]`). -/
structure LastCbc where
  opcode : CbcOpcode
  literalIndex : Nat
  literalObjectType : LexLitObjectType
deriving DecidableEq, Repr

/-- The slice of `parser_context_t` the embedded emitter fragments read and
write: the strict bit of `status_flags`, the staging slot, the flushed
byte-code stream and the parser stack. -/
structure ParserCtx where
  statusStrict : Bool
  last : LastCbc
  byteCode : List CbcOpcode
  parserStack : List Nat
deriving DecidableEq, Repr

/-- Flush the staging slot and append an opcode to the byte-code stream
(`parser_emit_cbc`, simplified to its stream effect). -/
def parser_emit_cbc (p : ParserCtx) (op : CbcOpcode) : ParserCtx :=
  let flushed :=
    match p.last.opcode with
    | .unavailable => p.byteCode
    | o => p.byteCode ++ [o]
  { p with byteCode := flushed ++ [op],
           last := { p.last with opcode := .unavailable } }

/-- Embeds `parser_emit_unary_lvalue_opcode` (js-parser-expr.c): when the
staged instruction is an identifier push, a strict-mode context whose
identifier is `eval` or `arguments` raises the matching parse error before
anything is emitted; otherwise the staged push (or property read) is
rewritten in place into the fused lvalue form, and with no fusable staged
instruction an undefined-base push is emitted before the plain opcode. -/
def parser_emit_unary_lvalue_opcode (p : ParserCtx) (opcode : Nat) :
    Except ParserError ParserCtx :=
  if p.last.opcode = .pushIdent then
    if p.statusStrict = true ∧ p.last.literalObjectType ≠ .any then
      if p.last.literalObjectType = .evalIdent then
        .error .evalCannotAssigned
      else .error .argumentsCannotAssigned
    else
      .ok { p with last := { p.last with opcode := .unaryLvalueWithIdent opcode } }
  else if p.last.opcode = .propGet then
    .ok { p with last := { p.last with opcode := .unaryLvalue opcode } }
  else if p.last.opcode = .propLiteralGet then
    .ok { p with last :=
            { p.last with opcode := .unaryLvalueWithPropLiteral opcode } }
  else if p.last.opcode = .propLiteralLiteralGet then
    .ok { p with last :=
            { p.last with opcode := .unaryLvalueWithPropLiteralLiteral opcode } }
  else
    .ok (parser_emit_cbc (parser_emit_cbc p .extPushUndefinedBase)
          (.unaryLvalue opcode))

/-- The binary tokens the embedded `parser_append_binary_token` fragment
distinguishes: plain assignment, the compound-assignment (binary lvalue)
tokens, the short-circuit logical tokens, and the remaining binary
operators. -/
inductive BinToken
  | assignTok
  | compoundAssignTok (op : Nat)
  | logicalOrTok
  | logicalAndTok
  | plainTok (op : Nat)
deriving DecidableEq, Repr

/-- Token codes pushed onto the parser stack for later processing. -/
def binTokenCode : BinToken → Nat
  | .assignTok => 1
  | .compoundAssignTok op => 2 + op
  | .logicalOrTok => 2
  | .logicalAndTok => 3
  | .plainTok op => 4 + op

/-- Embeds `parser_append_binary_token` (js-parser-expr.c).  For `=` with a
staged identifier push, strict mode raises the eval/arguments parse error;
otherwise the assignment form is staged on the parser stack.  For
compound-assignment tokens with a staged identifier push the same strict
check applies before the staged push is rewritten into the fused
assignment form.  Property reads are rewritten into their assignment
forms, anything else gets an undefined-base push, and finally the token is
recorded on the parser stack. -/
def parser_append_binary_token (p : ParserCtx) (tok : BinToken) :
    Except ParserError ParserCtx :=
  let finish := fun (q : ParserCtx) =>
    Except.ok { q with parserStack := binTokenCode tok :: q.parserStack }
  match tok with
  | .assignTok =>
    if p.last.opcode = .pushIdent then
      if p.statusStrict = true ∧ p.last.literalObjectType ≠ .any then
        if p.last.literalObjectType = .evalIdent then
          .error .evalCannotAssigned
        else .error .argumentsCannotAssigned
      else
        finish { p with
          parserStack := p.last.literalIndex :: p.parserStack,
          last := { p.last with opcode := .unavailable } }
    else if p.last.opcode = .propGet then
      finish { p with last := { p.last with opcode := .unavailable } }
    else if p.last.opcode = .propLiteralGet then
      finish { p with
        parserStack := p.last.literalIndex :: p.parserStack,
        last := { p.last with opcode := .unavailable } }
    else if p.last.opcode = .propLiteralLiteralGet then
      finish { p with last := { p.last with opcode := .pushTwoLiterals } }
    else
      finish (parser_emit_cbc p .extPushUndefinedBase)
  | .compoundAssignTok _op =>
    if p.last.opcode = .pushIdent then
      if p.statusStrict = true ∧ p.last.literalObjectType ≠ .any then
        if p.last.literalObjectType = .evalIdent then
          .error .evalCannotAssigned
        else .error .argumentsCannotAssigned
      else
        finish { p with last := { p.last with opcode := .assignLiteral } }
    else if p.last.opcode = .propGet then
      finish { p with last := { p.last with opcode := .assignPropGet } }
    else if p.last.opcode = .propLiteralGet then
      finish { p with last := { p.last with opcode := .assignPropLiteralGet } }
    else if p.last.opcode = .propLiteralLiteralGet then
      finish { p with
        last := { p.last with opcode := .assignPropLiteralLiteralGet } }
    else
      finish (parser_emit_cbc (parser_emit_cbc p .extPushUndefinedBase)
               .assignPropGet)
  | .logicalOrTok => finish (parser_emit_cbc p .branchIfLogicalTrue)
  | .logicalAndTok => finish (parser_emit_cbc p .branchIfLogicalFalse)
  | .plainTok _ => finish p

/- Shared concrete fixtures used by witnesses. -/

/-- Header flags for a sample function: chosen strictness, no lexical
environment needed, no Arguments object, uint8 argument layout. -/
def sampleFlags (strict : Bool) : CodeFlags := ⟨strict, true, false, false⟩

/-- A sample compiled-code blob with two declared parameters. -/
def sampleCode (strict : Bool) : CompiledCode := ⟨sampleFlags strict, 2, 0⟩

/-- A stub built-in object used to populate the registry in fixtures. -/
def builtinStub (id : Nat) : Obj :=
  { otype := .general, isBuiltin := true, isExtensible := true, proto := none,
    props := [], internals := [], ext := .builtin id id 0 0 }

/-- A sample plain non-built-in function object over the Function
prototype stub. -/
def plainFnObj (strict : Bool) : Obj :=
  { otype := .function, isBuiltin := false, isExtensible := true,
    proto := some 2, props := [], internals := [],
    ext := .fn 0 (sampleCode strict) }

/-- A sample bound-function object. -/
def boundFnObj (target : ObjId) (boundThis : Val) (xs : Option (List Val)) :
    Obj :=
  { otype := .boundFunction, isBuiltin := false, isExtensible := true,
    proto := some 2, props := [],
    internals :=
      (InternalId.boundFunctionBoundThis, InternalVal.val boundThis) ::
      (InternalId.boundFunctionTargetFunction, InternalVal.objPtr target) ::
      (match xs with
       | some l => [(InternalId.boundFunctionBoundArgs,
                     InternalVal.argCollection l)]
       | none => []),
    ext := .plain }

/-- A base context: the four built-ins registered as stubs at identifiers
0-3, a strict function at 5, a non-strict function at 6 and a bound
function at 7. -/
def ctxA : Ctx :=
  { objs := [(0, builtinStub 0), (1, builtinStub 1), (2, builtinStub 2),
             (3, builtinStub 3), (5, plainFnObj true), (6, plainFnObj false),
             (7, boundFnObj 5 (.boolean true) (some [.number (.ofNat 1)]))],
    nextId := 10,
    builtins := [(0, 0), (1, 1), (2, 2), (3, 3)],
    builtinLists := [] }

/-- Observer oracles: the interpreter returns the this binding it was
handed (the byte-code `function () { return this }`), the remaining
collaborators return undefined. -/
def obsOracles : Oracles :=
  { vmRun := fun ctx _ tb _ _ => (ctx, .normal tb),
    builtinDispatchCall := fun ctx _ _ _ => (ctx, .normal .undef),
    builtinDispatchConstruct := fun ctx _ _ => (ctx, .normal .undef),
    externalDispatch := fun ctx _ _ _ _ => (ctx, .normal .undef) }

/-- C10: `[[HasInstance]]` on a plain-function-typed object returns false
immediately for every non-object argument — the context is untouched and
in particular `prototype` is never read, so no TypeError can arise from a
missing or non-object `prototype`. -/
theorem c10_has_instance_primitive_false (fuel : Nat) (O : Oracles)
    (ctx : Ctx) (f : ObjId) (fob : Obj) (v : Val)
    (hf : ctx.find f = some fob)
    (hty : fob.otype = .function)
    (hv : ∀ o : ObjId, v ≠ .object o) :
    ecma_op_function_has_instance (fuel + 1) O ctx f v =
      some (ctx, .normal (.boolean false)) := by
  cases v with
  | object o => exact absurd rfl (hv o)
  | undef => simp [ecma_op_function_has_instance, hf, hty]
  | null => simp [ecma_op_function_has_instance, hf, hty]
  | boolean b => simp [ecma_op_function_has_instance, hf, hty]
  | number n => simp [ecma_op_function_has_instance, hf, hty]
  | string s => simp [ecma_op_function_has_instance, hf, hty]

/-- C10 witness: a strict function with no `prototype` property and a
boolean argument. -/
theorem c10_witness :
    ecma_op_function_has_instance 1 obsOracles ctxA 5 (.boolean true) =
      some (ctxA, .normal (.boolean false)) :=
  c10_has_instance_primitive_false 0 obsOracles ctxA 5 (plainFnObj true)
    (.boolean true) rfl rfl (fun o h => by cases h)

/-- C8: in a strict-mode parser context whose staged instruction is a push
of the identifier `eval` (resp. `arguments`), every unary lvalue operation
(increment, decrement, delete), the plain assignment token and every
compound-assignment token make the emitter raise
PARSER_ERR_EVAL_CANNOT_ASSIGNED (resp.
PARSER_ERR_ARGUMENTS_CANNOT_ASSIGNED) — the parse aborts with the error
and no rewritten or emitted byte-code is produced. -/
theorem c8_strict_eval_arguments_assignment_rejected (p : ParserCtx)
    (hstrict : p.statusStrict = true)
    (hlast : p.last.opcode = .pushIdent) :
    (p.last.literalObjectType = .evalIdent →
       (∀ opcode, parser_emit_unary_lvalue_opcode p opcode =
          .error .evalCannotAssigned) ∧
       parser_append_binary_token p .assignTok = .error .evalCannotAssigned ∧
       (∀ op, parser_append_binary_token p (.compoundAssignTok op) =
          .error .evalCannotAssigned)) ∧
    (p.last.literalObjectType = .argumentsIdent →
       (∀ opcode, parser_emit_unary_lvalue_opcode p opcode =
          .error .argumentsCannotAssigned) ∧
       parser_append_binary_token p .assignTok =
         .error .argumentsCannotAssigned ∧
       (∀ op, parser_append_binary_token p (.compoundAssignTok op) =
          .error .argumentsCannotAssigned)) := by
  constructor <;> intro hlt <;>
    refine ⟨fun opcode => ?_, ?_, fun op => ?_⟩ <;>
    simp [parser_emit_unary_lvalue_opcode, parser_append_binary_token,
          hstrict, hlast, hlt]

/-- C8 witness: a strict context with a staged push of `arguments`, hit
with the increment opcode. -/
theorem c8_witness :
    parser_emit_unary_lvalue_opcode
        ⟨true, ⟨.pushIdent, 0, .argumentsIdent⟩, [], []⟩ 0 =
      .error .argumentsCannotAssigned :=
  ((c8_strict_eval_arguments_assignment_rejected
      ⟨true, ⟨.pushIdent, 0, .argumentsIdent⟩, [], []⟩ rfl rfl).2 rfl).1 0

/-- C3: `[[Call]]` on a bound function ignores the supplied this argument
and recurses into the target with the bound this value; when a bound
argument list is stored it is copied in order in front of the supplied
arguments (and an absent list behaves as the empty prefix). -/
theorem c3_bound_call_merges_args (fuel : Nat) (O : Oracles) (ctx : Ctx)
    (b target : ObjId) (bob : Obj) (t thisArg : Val) (args : List Val)
    (hb : ctx.find b = some bob)
    (hty : bob.otype = .boundFunction)
    (hthis : bob.internals.lookup .boundFunctionBoundThis =
      some (.val t))
    (htarget : bob.internals.lookup .boundFunctionTargetFunction =
      some (.objPtr target)) :
    (∀ xs, bob.internals.lookup .boundFunctionBoundArgs =
        some (.argCollection xs) →
      ecma_op_function_call (fuel + 1) O ctx b thisArg args =
        ecma_op_function_call fuel O ctx target t (xs ++ args)) ∧
    (bob.internals.lookup .boundFunctionBoundArgs = none →
      ecma_op_function_call (fuel + 1) O ctx b thisArg args =
        ecma_op_function_call fuel O ctx target t args) := by
  constructor
  · intro xs hxs
    simp [ecma_op_function_call, hb, hty, hthis, htarget, hxs,
          ecma_function_bind_merge_arg_lists_eq_append]
  · intro hxs
    simp [ecma_op_function_call, hb, hty, hthis, htarget, hxs]

/-- C3 witness: the bound function at 7 called on the strict target at 5
with one bound argument and one supplied argument. -/
theorem c3_witness :
    ecma_op_function_call 2 obsOracles ctxA 7 .undef [.null] =
      ecma_op_function_call 1 obsOracles ctxA 5 (.boolean true)
        ([.number (.ofNat 1)] ++ [.null]) :=
  (c3_bound_call_merges_args 1 obsOracles ctxA 7 5
      (boundFnObj 5 (.boolean true) (some [.number (.ofNat 1)]))
      (.boolean true) .undef [.null] rfl rfl rfl rfl).1
    [.number (.ofNat 1)] rfl

/-- A registry fixture holding only the Function prototype, used by the C6
counterexample. -/
def ctxC6 : Ctx :=
  { objs := [(2, builtinStub 2)], nextId := 10, builtins := [(2, 2)],
    builtinLists := [] }

/-- C6 counterexample: the function object built by
`ecma_builtin_make_function_object_for_routine` — a built-in routine, its
routine id beyond the built-in id range — satisfies `ecma_is_constructor`,
because routines carry the plain-function type tag and the constructor
check looks only at the type tag; so is_constructor does hold for built-in
routines, contrary to the claim. -/
theorem c6_counterexample :
    ecma_is_constructor
        (ecma_builtin_make_function_object_for_routine ctxC6 0
          (ECMA_BUILTIN_ID__COUNT + 1) 1).1
        (.object (ecma_builtin_make_function_object_for_routine ctxC6 0
          (ECMA_BUILTIN_ID__COUNT + 1) 1).2) = true ∧
    Option.any
        (fun ob => ob.isBuiltin && ecma_builtin_function_is_routine ob)
        ((ecma_builtin_make_function_object_for_routine ctxC6 0
            (ECMA_BUILTIN_ID__COUNT + 1) 1).1.find
          (ecma_builtin_make_function_object_for_routine ctxC6 0
            (ECMA_BUILTIN_ID__COUNT + 1) 1).2) = true := by
  decide

/-- C6 amended: `ecma_is_constructor` holds exactly for objects whose type
tag is plain-function, bound-function or external-function (and for no
non-object value); built-in routines created by
`ecma_builtin_make_function_object_for_routine` carry the plain-function
type tag, so is_constructor holds for every such routine — only objects of
the distinct built-in-function type are excluded. -/
theorem c6_amended_is_constructor :
    (∀ (ctx : Ctx) (o : ObjId) (ob : Obj), ctx.find o = some ob →
       (ecma_is_constructor ctx (.object o) = true ↔
         (ob.otype = .function ∨ ob.otype = .boundFunction ∨
          ob.otype = .externalFunction))) ∧
    (∀ (ctx : Ctx) (v : Val), (∀ o : ObjId, v ≠ .object o) →
       ecma_is_constructor ctx v = false) ∧
    (∀ (ctx : Ctx) (bid rid len : Nat),
       ecma_is_constructor
           (ecma_builtin_make_function_object_for_routine ctx bid rid len).1
           (.object (ecma_builtin_make_function_object_for_routine
              ctx bid rid len).2) = true) := by
  refine ⟨?_, ?_, ?_⟩
  · intro ctx o ob h
    simp [ecma_is_constructor, h]
  · intro ctx v hv
    cases v with
    | object o => exact absurd rfl (hv o)
    | undef => rfl
    | null => rfl
    | boolean b => rfl
    | number n => rfl
    | string s => rfl
  · intro ctx bid rid len
    unfold ecma_builtin_make_function_object_for_routine
    cases hfp : ctx.builtins.lookup ECMA_BUILTIN_ID_FUNCTION_PROTOTYPE <;>
      simp [ecma_builtin_get, hfp, ecma_create_object, Ctx.alloc, Ctx.find,
            Ctx.setObj, ecma_is_constructor, List.lookup]

/-- C6 amended witness: the strict function at 5 in the base context is a
constructor. -/
theorem c6_amended_witness : ecma_is_constructor ctxA (.object 5) = true :=
  (c6_amended_is_constructor.1 ctxA 5 (plainFnObj true) rfl).mpr (Or.inl rfl)

/-- C1: calling a plain non-built-in function under the observer
interpreter (whose byte-code returns its this binding) shows how
`[[Call]]` computes the this binding: when the byte-code carries the
strict flag the binding is exactly the supplied value, with no conversion
or boxing; otherwise undefined and null are replaced by the global
built-in object and any other value by `to_object` of it. -/
theorem c1_call_this_binding (ctx : Ctx) (f scope : ObjId)
    (bc : CompiledCode) (t : Val) (args : List Val) (fob : Obj)
    (hf : ctx.find f = some fob)
    (hty : fob.otype = .function)
    (hnb : fob.isBuiltin = false)
    (hext : fob.ext = .fn scope bc) :
    (bc.status_flags.strictMode = true →
       ∀ fuel,
         (ecma_op_function_call (fuel + 1) obsOracles ctx f t args).map
             Prod.snd = some (.normal t)) ∧
    (bc.status_flags.strictMode = false → (t = .undef ∨ t = .null) →
       ∀ gid, ctx.builtins.lookup ECMA_BUILTIN_ID_GLOBAL = some gid →
       ∀ fuel,
         (ecma_op_function_call (fuel + 1) obsOracles ctx f t args).map
             Prod.snd = some (.normal (.object gid))) ∧
    (bc.status_flags.strictMode = false → t ≠ .undef → t ≠ .null →
       ∀ c v, ecma_op_to_object ctx t = (c, .normal v) →
       ∀ fuel,
         (ecma_op_function_call (fuel + 1) obsOracles ctx f t args).map
             Prod.snd = some (.normal v)) := by
  refine ⟨?_, ?_, ?_⟩
  · intro hs fuel
    simp [ecma_op_function_call, hf, hty, hnb, hext, hs, obsOracles]
  · intro hs hun gid hg fuel
    rcases hun with h | h <;> subst h <;>
      simp [ecma_op_function_call, hf, hty, hnb, hext, hs, obsOracles,
            ecma_builtin_get, hg]
  · intro hs h1 h2 c v hto fuel
    have hcond : ¬(t = .undef ∨ t = .null) := by
      rintro (h | h) <;> [exact h1 h; exact h2 h]
    simp [ecma_op_function_call, hf, hty, hnb, hext, hs, obsOracles,
          hcond, hto]

/-- C1 witness: the strict function at 5 sees a bare boolean this value,
the non-strict function at 6 boxes undefined to the registered global
object. -/
theorem c1_witness :
    (ecma_op_function_call 1 obsOracles ctxA 5 (.boolean true) []).map
        Prod.snd = some (.normal (.boolean true)) ∧
    (ecma_op_function_call 1 obsOracles ctxA 6 .undef []).map
        Prod.snd = some (.normal (.object 0)) := by
  constructor
  · exact (c1_call_this_binding ctxA 5 0 (sampleCode true) (.boolean true) []
      (plainFnObj true) rfl rfl rfl rfl).1 rfl 0
  · exact (c1_call_this_binding ctxA 6 0 (sampleCode false) .undef []
      (plainFnObj false) rfl rfl rfl rfl).2.1 rfl (Or.inl rfl) 0 rfl 0

/-- One step along the prototype chain. -/
def protoStep (ctx : Ctx) (o : ObjId) : Option ObjId :=
  (ctx.find o).bind (·.proto)

/-- Iterated prototype steps: `iterProtoStep ctx k o` is the object k
links up the prototype chain from o, when the chain is that long. -/
def iterProtoStep (ctx : Ctx) : Nat → ObjId → Option ObjId
  | 0, o => some o
  | k + 1, o =>
      match protoStep ctx o with
      | some p => iterProtoStep ctx k p
      | none => none

/-- Unfolding lemma for a positive number of prototype steps. -/
theorem iterProtoStep_succ (ctx : Ctx) (k : Nat) (o : ObjId) :
    iterProtoStep ctx (k + 1) o =
      match protoStep ctx o with
      | some p => iterProtoStep ctx k p
      | none => none := rfl

/-- The instanceof walk answers true exactly when the sought object occurs
at some positive depth on the prototype chain of the start object. -/
theorem ecma_instanceof_walk_true_iff (fuel : Nat) (ctx : Ctx)
    (v p : ObjId) (b : Bool)
    (h : ecma_instanceof_walk fuel ctx v p = some b) :
    b = true ↔ ∃ k, 0 < k ∧ iterProtoStep ctx k v = some p := by
  induction fuel generalizing v b with
  | zero => simp [ecma_instanceof_walk] at h
  | succ n ih =>
    rw [ecma_instanceof_walk] at h
    have hps : ((ctx.find v).bind fun x => x.proto) = protoStep ctx v := rfl
    rw [hps] at h
    cases hs : protoStep ctx v with
    | none =>
        rw [hs] at h
        simp only [Option.some.injEq] at h
        subst h
        simp only [Bool.false_eq_true, false_iff]
        rintro ⟨k, hk, hit⟩
        cases k with
        | zero => exact absurd hk (lt_irrefl 0)
        | succ j =>
            rw [iterProtoStep_succ, hs] at hit
            exact Option.noConfusion hit
    | some parent =>
        rw [hs] at h
        have h2 : (if parent = p then some true
                   else ecma_instanceof_walk n ctx parent p) = some b := h
        by_cases hp : parent = p
        · rw [if_pos hp] at h2
          simp only [Option.some.injEq] at h2
          subst h2
          subst hp
          refine (iff_of_true rfl ⟨0 + 1, Nat.succ_pos 0, ?_⟩)
          rw [iterProtoStep_succ, hs]
          rfl
        · rw [if_neg hp] at h2
          rw [ih parent b h2]
          constructor
          · rintro ⟨k, hk, hit⟩
            refine ⟨k + 1, Nat.succ_pos k, ?_⟩
            rw [iterProtoStep_succ, hs]
            exact hit
          · rintro ⟨k, hk, hit⟩
            cases k with
            | zero => exact absurd hk (lt_irrefl 0)
            | succ j =>
                rw [iterProtoStep_succ, hs] at hit
                have hit2 : iterProtoStep ctx j parent = some p := hit
                cases j with
                | zero =>
                    have hpp : some parent = some p := hit2
                    exact absurd (Option.some.inj hpp) hp
                | succ i => exact ⟨i + 1, Nat.succ_pos i, hit2⟩

/-- C5: `[[HasInstance]]` on a plain-function-typed object with an object
argument reads `prototype` through `[[Get]]`; a non-object prototype
raises TypeError, and an object prototype makes the result exactly
"the prototype occurs at positive depth on the argument's prototype
chain".  A built-in-function-typed or external function raises TypeError,
and a bound function delegates to its target. -/
theorem c5_has_instance_dispatch (fuel : Nat) (O : Oracles) (ctx : Ctx)
    (f : ObjId) (fob : Obj)
    (hf : ctx.find f = some fob) :
    (fob.otype = .function →
       ∀ vObj ctx1 pv,
         ecma_op_object_get fuel O ctx f LIT_MAGIC_STRING_PROTOTYPE =
           some (ctx1, .normal pv) →
         (∀ q : ObjId, pv ≠ .object q) →
         ecma_op_function_has_instance (fuel + 1) O ctx f (.object vObj) =
           some (ctx1, .typeError)) ∧
    (fob.otype = .function →
       ∀ vObj ctx1 protoObj b,
         ecma_op_object_get fuel O ctx f LIT_MAGIC_STRING_PROTOTYPE =
           some (ctx1, .normal (.object protoObj)) →
         ecma_instanceof_walk fuel ctx1 vObj protoObj = some b →
         ecma_op_function_has_instance (fuel + 1) O ctx f (.object vObj) =
             some (ctx1, .normal (.boolean b)) ∧
           (b = true ↔ ∃ k, 0 < k ∧
             iterProtoStep ctx1 k vObj = some protoObj)) ∧
    (fob.otype = .builtinFunction ∨ fob.otype = .externalFunction →
       ∀ v, ecma_op_function_has_instance (fuel + 1) O ctx f v =
         some (ctx, .typeError)) ∧
    (fob.otype = .boundFunction →
       ∀ target,
         fob.internals.lookup .boundFunctionTargetFunction =
           some (.objPtr target) →
         ∀ v, ecma_op_function_has_instance (fuel + 1) O ctx f v =
           ecma_op_object_has_instance fuel O ctx target v) := by
  refine ⟨?_, ?_, ?_, ?_⟩
  · intro hty vObj ctx1 pv hget hnp
    cases pv with
    | object q => exact absurd rfl (hnp q)
    | undef => simp [ecma_op_function_has_instance, hf, hty, hget]
    | null => simp [ecma_op_function_has_instance, hf, hty, hget]
    | boolean b => simp [ecma_op_function_has_instance, hf, hty, hget]
    | number n => simp [ecma_op_function_has_instance, hf, hty, hget]
    | string s => simp [ecma_op_function_has_instance, hf, hty, hget]
  · intro hty vObj ctx1 protoObj b hget hwalk
    refine ⟨?_, ecma_instanceof_walk_true_iff fuel ctx1 vObj protoObj b hwalk⟩
    simp [ecma_op_function_has_instance, hf, hty, hget, hwalk]
  · intro hty v
    rcases hty with h | h <;>
      simp [ecma_op_function_has_instance, hf, h]
  · intro hty target htarget v
    simp [ecma_op_function_has_instance, hf, hty, htarget]

/-- The context after the C5 witness reads the lazily materialized
`prototype` of the function at 5. -/
def c5ctx1 : Ctx :=
  ((ecma_op_object_get 3 obsOracles ctxA 5
      LIT_MAGIC_STRING_PROTOTYPE).getD (ctxA, .typeError)).1

/-- C5 witness: the strict function at 5 (whose `prototype` materializes
lazily to the fresh object 10) tested against the function object at 6,
whose chain does not contain it. -/
theorem c5_witness :
    ecma_op_function_has_instance 4 obsOracles ctxA 5 (.object 6) =
      some (c5ctx1, .normal (.boolean false)) :=
  (((c5_has_instance_dispatch 3 obsOracles ctxA 5 (plainFnObj true)
      rfl).2.1 rfl 6 c5ctx1 10 false rfl rfl).1)

/-- C2: `[[Construct]]` on a plain non-built-in or external function reads
`prototype` through `[[Get]]`, allocates a fresh non-extended extensible
general object whose prototype is that value when it is an object and the
Object prototype built-in otherwise, invokes `[[Call]]` with the fresh
object as this and returns the call's result when it is an object and the
fresh object otherwise; on a bound function it raises TypeError when the
target is not a constructor and otherwise recurses into the target with
the bound arguments prepended to the supplied ones. -/
theorem c2_construct_protocol (fuel : Nat) (O : Oracles) (ctx : Ctx)
    (f : ObjId) (args : List Val) (fob : Obj)
    (hf : ctx.find f = some fob) :
    ((fob.otype = .function ∧ fob.isBuiltin = false) ∨
      fob.otype = .externalFunction →
       ∀ ctx1 pr,
         ecma_op_object_get fuel O ctx f LIT_MAGIC_STRING_PROTOTYPE =
           some (ctx1, .normal (.object pr)) →
         ∀ ctx3 r,
           ecma_op_function_call fuel O
               (ecma_create_object ctx1 (some pr) false true .general).1 f
               (.object (ecma_create_object ctx1 (some pr) false true
                 .general).2) args = some (ctx3, .normal r) →
           ecma_op_function_construct (fuel + 1 + 1) O ctx f args =
               some (ctx3, .normal
                 (match r with
                  | .object _ => r
                  | _ => .object
                      (ecma_create_object ctx1 (some pr) false true
                        .general).2)) ∧
             (ecma_create_object ctx1 (some pr) false true .general).1.find
                 (ecma_create_object ctx1 (some pr) false true .general).2 =
               some { otype := .general, isBuiltin := false,
                      isExtensible := true, proto := some pr, props := [],
                      internals := [], ext := .plain }) ∧
    ((fob.otype = .function ∧ fob.isBuiltin = false) ∨
      fob.otype = .externalFunction →
       ∀ ctx1 pv opid,
         ecma_op_object_get fuel O ctx f LIT_MAGIC_STRING_PROTOTYPE =
           some (ctx1, .normal pv) →
         (∀ q : ObjId, pv ≠ .object q) →
         ctx1.builtins.lookup ECMA_BUILTIN_ID_OBJECT_PROTOTYPE = some opid →
         ∀ ctx3 r,
           ecma_op_function_call fuel O
               (ecma_create_object ctx1 (some opid) false true .general).1 f
               (.object (ecma_create_object ctx1 (some opid) false true
                 .general).2) args = some (ctx3, .normal r) →
           ecma_op_function_construct (fuel + 1 + 1) O ctx f args =
               some (ctx3, .normal
                 (match r with
                  | .object _ => r
                  | _ => .object
                      (ecma_create_object ctx1 (some opid) false true
                        .general).2)) ∧
             (ecma_create_object ctx1 (some opid) false true .general).1.find
                 (ecma_create_object ctx1 (some opid) false true .general).2 =
               some { otype := .general, isBuiltin := false,
                      isExtensible := true, proto := some opid, props := [],
                      internals := [], ext := .plain }) ∧
    (fob.otype = .boundFunction →
       ∀ target,
         fob.internals.lookup .boundFunctionTargetFunction =
           some (.objPtr target) →
         (ecma_is_constructor ctx (.object target) = false →
            ecma_op_function_construct (fuel + 1) O ctx f args =
              some (ctx, .typeError)) ∧
         (ecma_is_constructor ctx (.object target) = true →
            (∀ xs, fob.internals.lookup .boundFunctionBoundArgs =
                some (.argCollection xs) →
              ecma_op_function_construct (fuel + 1) O ctx f args =
                ecma_op_function_construct fuel O ctx target (xs ++ args)) ∧
            (fob.internals.lookup .boundFunctionBoundArgs = none →
              ecma_op_function_construct (fuel + 1) O ctx f args =
                ecma_op_function_construct fuel O ctx target args))) := by
  refine ⟨?_, ?_, ?_⟩
  · intro hkind ctx1 pr hget ctx3 r hcall
    refine ⟨?_, by simp [ecma_create_object, Ctx.alloc, Ctx.find, List.lookup]⟩
    have hstep :
        ecma_op_function_construct (fuel + 1 + 1) O ctx f args =
          ecma_op_function_construct_simple_or_external (fuel + 1) O ctx f
            args := by
      rcases hkind with ⟨hty, hnb⟩ | hty
      · simp [ecma_op_function_construct, hf, hty, hnb]
      · simp [ecma_op_function_construct, hf, hty]
    rw [hstep]
    simp only [ecma_op_function_construct_simple_or_external, hget]
    simp only [hcall]
    cases r <;> simp
  · intro hkind ctx1 pv opid hget hnp hop ctx3 r hcall
    refine ⟨?_, by simp [ecma_create_object, Ctx.alloc, Ctx.find, List.lookup]⟩
    have hstep :
        ecma_op_function_construct (fuel + 1 + 1) O ctx f args =
          ecma_op_function_construct_simple_or_external (fuel + 1) O ctx f
            args := by
      rcases hkind with ⟨hty, hnb⟩ | hty
      · simp [ecma_op_function_construct, hf, hty, hnb]
      · simp [ecma_op_function_construct, hf, hty]
    rw [hstep]
    cases pv
    case object q => exact absurd rfl (hnp q)
    all_goals
      simp only [ecma_op_function_construct_simple_or_external, hget]
      simp only [ecma_builtin_get, hop]
      simp only [hcall]
      cases r <;> simp
  · intro hty target htarget
    refine ⟨?_, ?_⟩
    · intro hnc
      simp [ecma_op_function_construct, hf, hty, htarget, hnc]
    · intro hc
      refine ⟨fun xs hxs => ?_, fun hxs => ?_⟩ <;>
        simp [ecma_op_function_construct, hf, hty, htarget, hc, hxs,
              ecma_function_bind_merge_arg_lists_eq_append]

/-- The context after the C2 witness reads the lazily materialized
`prototype` of the strict function at 5. -/
def c2ctx1 : Ctx :=
  ((ecma_op_object_get 3 obsOracles ctxA 5
      LIT_MAGIC_STRING_PROTOTYPE).getD (ctxA, .typeError)).1

/-- The witness's fresh constructed object. -/
def c2fresh : Ctx × ObjId :=
  ecma_create_object c2ctx1 (some 10) false true .general

/-- C2 witness: constructing with the strict function at 5 under the
observer interpreter: the byte-code returns its this binding, which is the
fresh object, so construction returns the fresh object. -/
theorem c2_witness :
    ecma_op_function_construct 5 obsOracles ctxA 5 [] =
      some (c2fresh.1, .normal (.object c2fresh.2)) := by
  have h :=
    ((c2_construct_protocol 3 obsOracles ctxA 5 [] (plainFnObj true) rfl).1
      (Or.inl ⟨rfl, rfl⟩) c2ctx1 10 rfl c2fresh.1 (.object c2fresh.2) rfl).1
  exact h

/-- C4: on a plain non-built-in function, the first own-property lookup of
`length` materializes a non-writable, non-enumerable, non-configurable
data property whose value is the `argument_end` field of the byte-code
header (through the uint16 layout when the header flag is set, the uint8
layout otherwise); after materialization the ordinary lookup finds the
property and the lazy path is not consulted again, so repeated reads are
idempotent.  The first lookup of `prototype` materializes a writable,
non-enumerable, non-configurable data property holding a fresh general
object whose `constructor` property is writable, non-enumerable,
configurable and refers back to the function. -/
theorem c4_lazy_length_prototype (ctx : Ctx) (f scope : ObjId)
    (bc : CompiledCode) (fob : Obj)
    (hf : ctx.find f = some fob)
    (hnb : fob.isBuiltin = false)
    (hext : fob.ext = .fn scope bc) :
    (fob.props.lookup LIT_MAGIC_STRING_LENGTH = none →
       ecma_op_function_object_get_own_property ctx f
           LIT_MAGIC_STRING_LENGTH =
         (ctx.setObj f
            { fob with props :=
                (LIT_MAGIC_STRING_LENGTH,
                 ⟨ECMA_PROPERTY_FIXED,
                  .data (.number (.ofNat
                    (if bc.status_flags.uint16Arguments then bc.argumentEnd16
                     else bc.argumentEnd8)))⟩) :: fob.props },
          some ⟨ECMA_PROPERTY_FIXED,
                .data (.number (.ofNat
                  (if bc.status_flags.uint16Arguments then bc.argumentEnd16
                   else bc.argumentEnd8)))⟩)) ∧
    (∀ p : NamedProp,
       ecma_op_function_object_get_own_property
           (ctx.setObj f
             { fob with props := (LIT_MAGIC_STRING_LENGTH, p) :: fob.props })
           f LIT_MAGIC_STRING_LENGTH =
         (ctx.setObj f
            { fob with props := (LIT_MAGIC_STRING_LENGTH, p) :: fob.props },
          some p)) ∧
    (fob.props.lookup LIT_MAGIC_STRING_PROTOTYPE = none →
     f ≠ ctx.nextId →
     ∀ opid,
       ctx.builtins.lookup ECMA_BUILTIN_ID_OBJECT_PROTOTYPE = some opid →
       (ecma_op_function_object_get_own_property ctx f
            LIT_MAGIC_STRING_PROTOTYPE).2 =
           some ⟨ECMA_PROPERTY_FLAG_WRITABLE,
                 .data (.object ctx.nextId)⟩ ∧
       (ecma_op_function_object_get_own_property ctx f
            LIT_MAGIC_STRING_PROTOTYPE).1.find ctx.nextId =
           some { otype := .general, isBuiltin := false,
                  isExtensible := true, proto := some opid,
                  props := [(LIT_MAGIC_STRING_CONSTRUCTOR,
                             ⟨⟨true, false, true⟩, .data (.object f)⟩)],
                  internals := [], ext := .plain } ∧
       (ecma_op_function_object_get_own_property ctx f
            LIT_MAGIC_STRING_PROTOTYPE).1.find f =
           some { fob with props :=
              (LIT_MAGIC_STRING_PROTOTYPE,
               ⟨ECMA_PROPERTY_FLAG_WRITABLE,
                .data (.object ctx.nextId)⟩) :: fob.props }) := by
  refine ⟨?_, ?_, ?_⟩
  · intro hno
    simp [ecma_op_function_object_get_own_property,
          ecma_op_general_object_get_own_property,
          ecma_op_function_try_lazy_instantiate_property, hf, hnb, hext, hno,
          ecma_make_uint32_value]
  · intro p
    simp [ecma_op_function_object_get_own_property,
          ecma_op_general_object_get_own_property, Ctx.find, Ctx.setObj,
          List.lookup]
  · intro hno hfr opid hop
    have hlen : LIT_MAGIC_STRING_PROTOTYPE ≠ LIT_MAGIC_STRING_LENGTH := by
      decide
    have hf2 : List.lookup f ctx.objs = some fob := hf
    have hbeq : (f == ctx.nextId) = false := beq_eq_false_iff_ne.mpr hfr
    have hbeq2 : (ctx.nextId == f) = false :=
      beq_eq_false_iff_ne.mpr fun h => hfr h.symm
    refine ⟨?_, ?_, ?_⟩ <;>
      simp [ecma_op_function_object_get_own_property,
            ecma_op_general_object_get_own_property,
            ecma_op_function_try_lazy_instantiate_property, hf, hf2, hnb,
            hext, hno, hlen, ecma_builtin_get, hop, ecma_create_object,
            Ctx.alloc, Ctx.find, Ctx.setObj, List.lookup, hbeq, hbeq2]

/-- C4 witness: the non-strict function at 6 (two declared parameters,
uint8 header layout): the first length read materializes the fixed value
2, the second read finds the ordinary property and leaves the context
unchanged. -/
theorem c4_witness :
    ecma_op_function_object_get_own_property ctxA 6
        LIT_MAGIC_STRING_LENGTH =
      (ctxA.setObj 6
         { plainFnObj false with props :=
             [(LIT_MAGIC_STRING_LENGTH,
               ⟨ECMA_PROPERTY_FIXED, .data (.number (.ofNat 2))⟩)] },
       some ⟨ECMA_PROPERTY_FIXED, .data (.number (.ofNat 2))⟩) ∧
    ecma_op_function_object_get_own_property
        (ctxA.setObj 6
          { plainFnObj false with props :=
              [(LIT_MAGIC_STRING_LENGTH,
                ⟨ECMA_PROPERTY_FIXED, .data (.number (.ofNat 2))⟩)] })
        6 LIT_MAGIC_STRING_LENGTH =
      (ctxA.setObj 6
         { plainFnObj false with props :=
             [(LIT_MAGIC_STRING_LENGTH,
               ⟨ECMA_PROPERTY_FIXED, .data (.number (.ofNat 2))⟩)] },
       some ⟨ECMA_PROPERTY_FIXED, .data (.number (.ofNat 2))⟩) := by
  have h := c4_lazy_length_prototype ctxA 6 0 (sampleCode false)
    (plainFnObj false) rfl rfl rfl
  exact ⟨h.1 rfl, h.2.1 ⟨ECMA_PROPERTY_FIXED, .data (.number (.ofNat 2))⟩⟩

/-- Updating one object leaves every other object's record unchanged. -/
theorem Ctx.find_setObj_ne (ctx : Ctx) (t : ObjId) (ob : Obj) (o : ObjId)
    (h : o ≠ t) : (ctx.setObj t ob).find o = ctx.find o := by
  simp [Ctx.setObj, Ctx.find, List.lookup, beq_eq_false_iff_ne.mpr h]

/-- An updated object is found with its new record. -/
theorem Ctx.find_setObj_self (ctx : Ctx) (t : ObjId) (ob : Obj) :
    (ctx.setObj t ob).find t = some ob := by
  simp [Ctx.setObj, Ctx.find, List.lookup]

/-- Allocation leaves previously allocated identifiers unchanged. -/
theorem Ctx.find_alloc_ne (ctx : Ctx) (ob : Obj) (o : ObjId)
    (h : o ≠ ctx.nextId) : (ctx.alloc ob).1.find o = ctx.find o := by
  simp [Ctx.alloc, Ctx.find, List.lookup, beq_eq_false_iff_ne.mpr h]

/-- Updating an object keeps the static descriptor lists. -/
theorem Ctx.setObj_builtinLists (ctx : Ctx) (t : ObjId) (ob : Obj) :
    (ctx.setObj t ob).builtinLists = ctx.builtinLists := rfl

/-- Fetching a built-in does not disturb already-allocated objects, only
grows the allocation counter and keeps the static descriptor lists. -/
theorem ecma_builtin_get_preserves (ctx : Ctx) (id : Nat) (o : ObjId)
    (h : o < ctx.nextId) :
    (ecma_builtin_get ctx id).1.find o = ctx.find o ∧
    ctx.nextId ≤ (ecma_builtin_get ctx id).1.nextId ∧
    (ecma_builtin_get ctx id).1.builtinLists = ctx.builtinLists := by
  cases hlu : ctx.builtins.lookup id with
  | some oid => simp [ecma_builtin_get, hlu]
  | none =>
    have hne : (o == ctx.nextId) = false :=
      beq_eq_false_iff_ne.mpr (Nat.ne_of_lt h)
    simp [ecma_builtin_get, hlu, Ctx.find, Ctx.alloc, List.lookup, hne,
          Nat.le_succ]

/-- Building a routine function object does not disturb already-allocated
objects and keeps the static descriptor lists. -/
theorem routine_object_creation_preserves (ctx : Ctx) (bid rid len : Nat)
    (o : ObjId) (h : o < ctx.nextId) :
    (ecma_builtin_make_function_object_for_routine ctx bid rid
        len).1.find o = ctx.find o ∧
    (ecma_builtin_make_function_object_for_routine ctx bid rid
        len).1.builtinLists = ctx.builtinLists := by
  have hne : (o == ctx.nextId) = false :=
    beq_eq_false_iff_ne.mpr (Nat.ne_of_lt h)
  have hne1 : (o == ctx.nextId + 1) = false :=
    beq_eq_false_iff_ne.mpr (Nat.ne_of_lt (Nat.lt_succ_of_lt h))
  cases hlu : ctx.builtins.lookup ECMA_BUILTIN_ID_FUNCTION_PROTOTYPE with
  | some oid =>
      simp [ecma_builtin_make_function_object_for_routine, ecma_builtin_get,
            hlu, ecma_create_object, Ctx.alloc, Ctx.find, Ctx.setObj,
            List.lookup, hne]
  | none =>
      simp [ecma_builtin_make_function_object_for_routine, ecma_builtin_get,
            hlu, ecma_create_object, Ctx.alloc, Ctx.find, Ctx.setObj,
            List.lookup, hne, hne1]

/-- Constructing a descriptor's value does not disturb already-allocated
objects and keeps the static descriptor lists. -/
theorem ecma_builtin_descr_value_preserves (ctx : Ctx) (bid : Nat)
    (p : BuiltinPropPayload) (o : ObjId) (h : o < ctx.nextId) :
    (ecma_builtin_descr_value ctx bid p).1.find o = ctx.find o ∧
    (ecma_builtin_descr_value ctx bid p).1.builtinLists =
      ctx.builtinLists := by
  cases p with
  | simple v => exact ⟨rfl, rfl⟩
  | number raw => exact ⟨rfl, rfl⟩
  | string sid => exact ⟨rfl, rfl⟩
  | object b =>
      obtain ⟨h1, _, h3⟩ := ecma_builtin_get_preserves ctx b o h
      exact ⟨h1, h3⟩
  | routine rid len =>
      obtain ⟨h1, h3⟩ := routine_object_creation_preserves ctx bid rid len o h
      exact ⟨h1, h3⟩

/-- Setting a bit makes the masked test of that bit non-zero. -/
theorem lor_shift_land_ne_zero (x i : Nat) :
    (x ||| (1 <<< i)) &&& (1 <<< i) ≠ 0 := by
  have h2 : (1 : Nat) <<< i = 2 ^ i := by
    simp [Nat.shiftLeft_eq]
  rw [h2]
  intro hz
  have hb := congrArg (fun n => Nat.testBit n i) hz
  simp [Nat.testBit_and, Nat.testBit_lor, Nat.testBit_two_pow_self] at hb

/-- C7: on a built-in object that is not a routine, a listed property not
yet instantiated is created on its first request with the descriptor's
attributes — the corresponding bit being set in the 32-bit
`instantiated_bitset` of the object record for descriptor slots 0-31, and
in the secondary 32-bit mask held in an internal property for slots 32
and beyond — and the very next request for the same name on the resulting
context returns NULL, so each listed property is instantiated at most
once. -/
theorem c7_builtin_instantiate_once (ctx : Ctx) (o : ObjId) (ob : Obj)
    (name bid rid blen bitset : Nat) (plist : List BuiltinPropDescr)
    (index : Nat) (d : BuiltinPropDescr)
    (hf : ctx.find o = some ob)
    (hext : ob.ext = .builtin bid rid blen bitset)
    (hnr : ¬(ob.otype = .function ∧ ECMA_BUILTIN_ID__COUNT ≤ rid))
    (hlist : ctx.builtinLists.lookup bid = some plist)
    (hfind : ecma_builtin_find_descr plist name 0 = some (index, d))
    (hofr : o < ctx.nextId) :
    (index < 32 → bitset &&& (1 <<< index) = 0 →
       ecma_builtin_try_to_instantiate_property ctx o name =
           ((ecma_builtin_descr_value
               (ctx.setObj o
                 { ob with ext :=
                     .builtin bid rid blen (bitset ||| (1 <<< index)) })
               bid d.payload).1.setObj o
             { ob with
               ext := .builtin bid rid blen (bitset ||| (1 <<< index)),
               props := (name,
                 ⟨d.attributes, .data (ecma_builtin_descr_value
                   (ctx.setObj o
                     { ob with ext :=
                         .builtin bid rid blen (bitset ||| (1 <<< index)) })
                   bid d.payload).2⟩) :: ob.props },
            some ⟨d.attributes, .data (ecma_builtin_descr_value
              (ctx.setObj o
                { ob with ext :=
                    .builtin bid rid blen (bitset ||| (1 <<< index)) })
              bid d.payload).2⟩) ∧
         ecma_builtin_try_to_instantiate_property
             (ecma_builtin_try_to_instantiate_property ctx o name).1 o name =
           ((ecma_builtin_try_to_instantiate_property ctx o name).1,
            none)) ∧
    (¬index < 32 →
     ∀ m0,
       (match ob.internals.lookup InternalId.instantiatedMask32_63 with
        | some (InternalVal.mask m) => m
        | _ => 0) = m0 →
       ¬((ob.internals.lookup InternalId.instantiatedMask32_63).isSome ∧
          m0 &&& (1 <<< (index - 32)) ≠ 0) →
       ecma_builtin_try_to_instantiate_property ctx o name =
           ((ecma_builtin_descr_value
               (ctx.setObj o
                 { ob with internals :=
                     (InternalId.instantiatedMask32_63,
                      InternalVal.mask (m0 ||| (1 <<< (index - 32)))) ::
                       ob.internals })
               bid d.payload).1.setObj o
             { ob with
               internals :=
                 (InternalId.instantiatedMask32_63,
                  InternalVal.mask (m0 ||| (1 <<< (index - 32)))) ::
                   ob.internals,
               props := (name,
                 ⟨d.attributes, .data (ecma_builtin_descr_value
                   (ctx.setObj o
                     { ob with internals :=
                         (InternalId.instantiatedMask32_63,
                          InternalVal.mask (m0 ||| (1 <<< (index - 32)))) ::
                           ob.internals })
                   bid d.payload).2⟩) :: ob.props },
            some ⟨d.attributes, .data (ecma_builtin_descr_value
              (ctx.setObj o
                { ob with internals :=
                    (InternalId.instantiatedMask32_63,
                     InternalVal.mask (m0 ||| (1 <<< (index - 32)))) ::
                      ob.internals })
              bid d.payload).2⟩) ∧
         ecma_builtin_try_to_instantiate_property
             (ecma_builtin_try_to_instantiate_property ctx o name).1 o name =
           ((ecma_builtin_try_to_instantiate_property ctx o name).1,
            none)) := by
  have hgna : ¬(ob.otype = .function ∧
      ecma_builtin_function_is_routine ob = true) := by
    rintro ⟨ht, hr⟩
    simp [ecma_builtin_function_is_routine, hext] at hr
    exact hnr ⟨ht, hr⟩
  constructor
  · intro hlt hbit
    have hfirst :
        ecma_builtin_try_to_instantiate_property ctx o name =
          ((ecma_builtin_descr_value
              (ctx.setObj o
                { ob with ext :=
                    .builtin bid rid blen (bitset ||| (1 <<< index)) })
              bid d.payload).1.setObj o
            { ob with
              ext := .builtin bid rid blen (bitset ||| (1 <<< index)),
              props := (name,
                ⟨d.attributes, .data (ecma_builtin_descr_value
                  (ctx.setObj o
                    { ob with ext :=
                        .builtin bid rid blen (bitset ||| (1 <<< index)) })
                  bid d.payload).2⟩) :: ob.props },
           some ⟨d.attributes, .data (ecma_builtin_descr_value
             (ctx.setObj o
               { ob with ext :=
                   .builtin bid rid blen (bitset ||| (1 <<< index)) })
             bid d.payload).2⟩) := by
      have hq := ecma_builtin_descr_value_preserves
        (ctx.setObj o
          { ob with ext :=
              .builtin bid rid blen (bitset ||| (1 <<< index)) })
        bid d.payload o hofr
      simp only [ecma_builtin_try_to_instantiate_property, hf]
      rw [if_neg hgna]
      simp only [hext, hlist, Option.getD_some, hfind]
      rw [if_pos hlt]
      rw [if_neg (by simp [hbit])]
      rw [hq.1, Ctx.find_setObj_self]
    refine ⟨hfirst, ?_⟩
    rw [hfirst]
    have hq := ecma_builtin_descr_value_preserves
      (ctx.setObj o
        { ob with ext :=
            .builtin bid rid blen (bitset ||| (1 <<< index)) })
      bid d.payload o hofr
    simp only [ecma_builtin_try_to_instantiate_property, Ctx.find_setObj_self]
    simp only [ecma_builtin_function_is_routine, decide_eq_true_eq]
    rw [if_neg hnr]
    have hbl :
        ((ecma_builtin_descr_value
            (ctx.setObj o
              { ob with ext :=
                  .builtin bid rid blen (bitset ||| (1 <<< index)) })
            bid d.payload).1.setObj o
          { ob with
            ext := .builtin bid rid blen (bitset ||| (1 <<< index)),
            props := (name,
              ⟨d.attributes, .data (ecma_builtin_descr_value
                (ctx.setObj o
                  { ob with ext :=
                      .builtin bid rid blen (bitset ||| (1 <<< index)) })
                bid d.payload).2⟩) :: ob.props }).builtinLists =
          ctx.builtinLists := hq.2
    rw [hbl]
    simp only [hlist, Option.getD_some, hfind]
    rw [if_pos hlt]
    rw [if_pos (lor_shift_land_ne_zero bitset index)]
  · intro hge m0 hm0 hclear
    have hfirst :
        ecma_builtin_try_to_instantiate_property ctx o name =
          ((ecma_builtin_descr_value
              (ctx.setObj o
                { ob with internals :=
                    (InternalId.instantiatedMask32_63,
                     InternalVal.mask (m0 ||| (1 <<< (index - 32)))) ::
                      ob.internals })
              bid d.payload).1.setObj o
            { ob with
              internals :=
                (InternalId.instantiatedMask32_63,
                 InternalVal.mask (m0 ||| (1 <<< (index - 32)))) ::
                  ob.internals,
              props := (name,
                ⟨d.attributes, .data (ecma_builtin_descr_value
                  (ctx.setObj o
                    { ob with internals :=
                        (InternalId.instantiatedMask32_63,
                         InternalVal.mask (m0 ||| (1 <<< (index - 32)))) ::
                          ob.internals })
                  bid d.payload).2⟩) :: ob.props },
           some ⟨d.attributes, .data (ecma_builtin_descr_value
             (ctx.setObj o
               { ob with internals :=
                   (InternalId.instantiatedMask32_63,
                    InternalVal.mask (m0 ||| (1 <<< (index - 32)))) ::
                     ob.internals })
             bid d.payload).2⟩) := by
      have hq := ecma_builtin_descr_value_preserves
        (ctx.setObj o
          { ob with internals :=
              (InternalId.instantiatedMask32_63,
               InternalVal.mask (m0 ||| (1 <<< (index - 32)))) ::
                ob.internals })
        bid d.payload o hofr
      rw [hext] at hq
      simp only [ecma_builtin_try_to_instantiate_property, hf]
      rw [if_neg hgna]
      simp only [hext, hlist, Option.getD_some, hfind]
      rw [if_neg hge]
      rw [hm0]
      rw [if_neg hclear]
      rw [hq.1, Ctx.find_setObj_self]
    refine ⟨hfirst, ?_⟩
    rw [hfirst]
    have hq := ecma_builtin_descr_value_preserves
      (ctx.setObj o
        { ob with internals :=
            (InternalId.instantiatedMask32_63,
             InternalVal.mask (m0 ||| (1 <<< (index - 32)))) ::
              ob.internals })
      bid d.payload o hofr
    rw [hext] at hq
    simp only [hext]
    simp only [ecma_builtin_try_to_instantiate_property, Ctx.find_setObj_self]
    simp only [ecma_builtin_function_is_routine, decide_eq_true_eq]
    rw [if_neg hnr]
    simp only [Ctx.setObj_builtinLists]
    rw [hq.2]
    simp only [Ctx.setObj_builtinLists, hlist, Option.getD_some, hfind]
    rw [if_neg hge]
    simp only [List.lookup, beq_self_eq_true]
    rw [if_pos ⟨by simp,
      lor_shift_land_ne_zero m0 (index - 32)⟩]

/-- A descriptor for the C7 witness: a simple-valued property at slot 0. -/
def c7descr : BuiltinPropDescr := ⟨200, ⟨false, true, true⟩, .simple .null⟩

/-- The built-in object of the C7 witness (built-in id 9, not a routine). -/
def c7obj : Obj :=
  { otype := .general, isBuiltin := true, isExtensible := true,
    proto := none, props := [], internals := [], ext := .builtin 9 9 0 0 }

/-- A context for the C7 witness. -/
def ctxC7 : Ctx :=
  { objs := [(4, c7obj)], nextId := 5, builtins := [],
    builtinLists := [(9, [c7descr])] }

/-- C7 witness: the first request instantiates the listed property, the
second request on the resulting context returns NULL. -/
theorem c7_witness :
    ecma_builtin_try_to_instantiate_property
        (ecma_builtin_try_to_instantiate_property ctxC7 4 200).1 4 200 =
      ((ecma_builtin_try_to_instantiate_property ctxC7 4 200).1, none) :=
  ((c7_builtin_instantiate_once ctxC7 4 c7obj 200 9 9 0 0 [c7descr] 0 c7descr
      rfl rfl (by decide) rfl rfl (by decide)).1 (by decide) (by decide)).2

/-- C9: creating two strict functions in sequence installs `caller` and
`arguments` as non-enumerable, non-configurable accessor properties whose
getter and setter all reference the same object — the thrower registered
under ECMA_BUILTIN_ID_TYPE_ERROR_THROWER, which `ecma_builtin_get` serves
from the registry, so the thrower is pointer-identical across both
functions and across all four accessor slots. -/
theorem c9_strict_thrower_identity (ctx : Ctx) (scope1 scope2 : ObjId)
    (bc1 bc2 : CompiledCode) (ds1 ds2 : Bool) (fp th : ObjId)
    (hfp : ctx.builtins.lookup ECMA_BUILTIN_ID_FUNCTION_PROTOTYPE = some fp)
    (hth : ctx.builtins.lookup ECMA_BUILTIN_ID_TYPE_ERROR_THROWER = some th)
    (hs1 : (ds1 || bc1.status_flags.strictMode) = true)
    (hs2 : (ds2 || bc2.status_flags.strictMode) = true) :
    (((ecma_op_create_function_object
          (ecma_op_create_function_object ctx scope1 ds1 bc1).1 scope2 ds2
          bc2).1.find
        (ecma_op_create_function_object ctx scope1 ds1 bc1).2).bind
      (fun ob => ob.props.lookup LIT_MAGIC_STRING_CALLER) =
        some ⟨⟨false, false, false⟩, .accessor (some th) (some th)⟩) ∧
    (((ecma_op_create_function_object
          (ecma_op_create_function_object ctx scope1 ds1 bc1).1 scope2 ds2
          bc2).1.find
        (ecma_op_create_function_object ctx scope1 ds1 bc1).2).bind
      (fun ob => ob.props.lookup LIT_MAGIC_STRING_ARGUMENTS) =
        some ⟨⟨false, false, false⟩, .accessor (some th) (some th)⟩) ∧
    (((ecma_op_create_function_object
          (ecma_op_create_function_object ctx scope1 ds1 bc1).1 scope2 ds2
          bc2).1.find
        (ecma_op_create_function_object
          (ecma_op_create_function_object ctx scope1 ds1 bc1).1 scope2 ds2
          bc2).2).bind
      (fun ob => ob.props.lookup LIT_MAGIC_STRING_CALLER) =
        some ⟨⟨false, false, false⟩, .accessor (some th) (some th)⟩) ∧
    (((ecma_op_create_function_object
          (ecma_op_create_function_object ctx scope1 ds1 bc1).1 scope2 ds2
          bc2).1.find
        (ecma_op_create_function_object
          (ecma_op_create_function_object ctx scope1 ds1 bc1).1 scope2 ds2
          bc2).2).bind
      (fun ob => ob.props.lookup LIT_MAGIC_STRING_ARGUMENTS) =
        some ⟨⟨false, false, false⟩, .accessor (some th) (some th)⟩) := by
  have hne : ((ctx.nextId : Nat) == ctx.nextId + 1) = false :=
    beq_eq_false_iff_ne.mpr (Nat.ne_of_lt (Nat.lt_succ_self _))
  have hne2 : ((ctx.nextId + 1 : Nat) == ctx.nextId) = false :=
    beq_eq_false_iff_ne.mpr (Nat.ne_of_gt (Nat.lt_succ_self _))
  refine ⟨?_, ?_, ?_, ?_⟩ <;>
    simp [ecma_op_create_function_object, ecma_builtin_get, hfp, hth, hs1,
          hs2, defineAccessorProp, ecma_create_object, Ctx.alloc, Ctx.setObj,
          Ctx.find, List.lookup, hne, hne2, LIT_MAGIC_STRING_CALLER,
          LIT_MAGIC_STRING_ARGUMENTS]

/-- C9 witness: two strict functions created in the base context share the
registered thrower at 3 in all four accessor slots. -/
theorem c9_witness :
    (((ecma_op_create_function_object
          (ecma_op_create_function_object ctxA 0 true (sampleCode true)).1 0
          true (sampleCode true)).1.find
        (ecma_op_create_function_object ctxA 0 true (sampleCode true)).2).bind
      (fun ob => ob.props.lookup LIT_MAGIC_STRING_CALLER) =
        some ⟨⟨false, false, false⟩, .accessor (some 3) (some 3)⟩) :=
  (c9_strict_thrower_identity ctxA 0 0 (sampleCode true) (sampleCode true)
    true true 2 3 rfl rfl rfl rfl).1

end JerryFn
